import Mathlib

set_option maxRecDepth 4000

/-!
Verification of the rugix core: the STLV tag registry
(`crates/libs/rugix-bundle/src/format/tags.rs`) and the slot model
(`crates/tools/rugix-ctrl/src/system/slots.rs`), shallowly embedded in Lean.
Collaborator interfaces that live outside the two core files (the STLV `Tag`
type, the typed slot configurations, `SystemRoot` and `BlockDevice`) are
modelled from the specification of their interfaces.
-/

namespace Rugix

/-! # Tag registry -/

/-- Modelled from the spec: an STLV `Tag` (declared in the STLV codec module,
not part of the core sources) is an opaque 4-byte big-endian identifier,
constructed via `Tag::from_bytes` and inspected via `Tag::as_bytes`.
We represent the four bytes directly; `b0` is the first (most significant)
byte of the big-endian representation. -/
structure Tag where
  b0 : Nat
  b1 : Nat
  b2 : Nat
  b3 : Nat
deriving DecidableEq

/-- `Tag::from_bytes((t as u32).to_be_bytes())`: build a tag from a 32-bit
value, big-endian, so the first byte holds the most significant bits. -/
def Tag.fromU32 (t : Nat) : Tag :=
  ⟨t / 2 ^ 24 % 256, t / 2 ^ 16 % 256, t / 2 ^ 8 % 256, t % 256⟩

/-- `IS_OPTIONAL_MASK`: bit mask to determine whether the handling of a tag is
optional or required (`0b1000_0000`). -/
def IS_OPTIONAL_MASK : Nat := 128

/-- `is_optional`: whether handling of the tag is optional
(`(tag.as_bytes()[0] & IS_OPTIONAL_MASK) != 0`). -/
def is_optional (tag : Tag) : Bool :=
  tag.b0 &&& IS_OPTIONAL_MASK != 0

/-- `is_required`: whether handling of the tag is required (`!is_optional(tag)`). -/
def is_required (tag : Tag) : Bool :=
  !is_optional tag

/-! The named tags of `define_tags!`, mirroring the source table. -/

def BUNDLE : Tag := Tag.fromU32 0x6b50741c
def BUNDLE_HEADER : Tag := Tag.fromU32 0x49af6433
def BUNDLE_HEADER_MANIFEST : Tag := Tag.fromU32 0x161aa242
def BUNDLE_HEADER_HASH_ALGORITHM : Tag := Tag.fromU32 0x5cb80dd6
def BUNDLE_HEADER_PAYLOAD_INDEX : Tag := Tag.fromU32 0x13737992
def PAYLOAD_ENTRY_TYPE_SLOT : Tag := Tag.fromU32 0x45ca7e7e
def PAYLOAD_ENTRY_TYPE_EXECUTE : Tag := Tag.fromU32 0x3adf32f5
def PAYLOAD_ENTRY_HEADER_HASH : Tag := Tag.fromU32 0x5f6a60b1
def PAYLOAD_ENTRY_FILE_HASH : Tag := Tag.fromU32 0x0c8d1fd0
def PAYLOAD_ENTRY_DELTA_ENCODING : Tag := Tag.fromU32 0x272cdf9f
def PAYLOAD_TYPE_SLOT_SLOT : Tag := Tag.fromU32 0x1b231de7
def PAYLOAD_TYPE_EXECUTE_HANDLER : Tag := Tag.fromU32 0x4b3836a2
def BLOCK_INDEX : Tag := Tag.fromU32 0x1ae50c8e
def BUNDLE_HEADER_IS_INCREMENTAL : Tag := Tag.fromU32 0x20f3d16b
def BLOCK_INDEX_CHUNKER : Tag := Tag.fromU32 0x5cdf21b0
def BLOCK_INDEX_HASH_ALGORITHM : Tag := Tag.fromU32 0x1d92a080
def BLOCK_INDEX_BLOCK_HASHES : Tag := Tag.fromU32 0x55e547d8
def BLOCK_INDEX_BLOCK_SIZES : Tag := Tag.fromU32 0x4668c5ba
def SIGNATURES : Tag := Tag.fromU32 0xa83936f1
def SIGNATURES_CMS_SIGNATURE : Tag := Tag.fromU32 0x9795498f
def PAYLOADS : Tag := Tag.fromU32 0x1f38fba
def PAYLOAD : Tag := Tag.fromU32 0x490cafaf
def PAYLOAD_HEADER : Tag := Tag.fromU32 0x0959ca75
def PAYLOAD_DATA : Tag := Tag.fromU32 0x42fd641a
def PAYLOAD_HEADER_BLOCK_ENCODING : Tag := Tag.fromU32 0x40ed9314
def COMPRESSION_XZ : Tag := Tag.fromU32 0x747df11b
def BLOCK_ENCODING_HASH_ALGORITHM : Tag := Tag.fromU32 0x7f1f994b
def BLOCK_ENCODING_DEDUPLICATED : Tag := Tag.fromU32 0x05902926
def BLOCK_ENCODING_CHUNKER : Tag := Tag.fromU32 0x55872cf8
def BLOCK_ENCODING_COMPRESSION : Tag := Tag.fromU32 0x783217c6
def BLOCK_ENCODING_BLOCK_HASHES : Tag := Tag.fromU32 0x76b3d7a0
def BLOCK_ENCODING_BLOCK_SIZES : Tag := Tag.fromU32 0x27e5d3f2
def DELTA_ENCODING_FORMAT : Tag := Tag.fromU32 0x3b8aeb9a
def DELTA_ENCODING_INPUT : Tag := Tag.fromU32 0x4e08b9f1
def DELTA_ENCODING_ORIGINAL_HASH : Tag := Tag.fromU32 0x64760e1c
def DELTA_ENCODING_INPUT_HASH : Tag := Tag.fromU32 0x3a0d1307
def SIGNED_METADATA : Tag := Tag.fromU32 0x61d0871e
def SIGNED_METADATA_HEADER_HASH : Tag := Tag.fromU32 0x1f992dfc

/-- The registry as a table: each defined tag together with the flag recorded
in the `define_tags!` invocation (`true` for the entries marked `?`, i.e.
declared optional; `false` for those declared required), in source order. -/
def definedTags : List (Tag × Bool) :=
  [ (BUNDLE, false),
    (BUNDLE_HEADER, false),
    (BUNDLE_HEADER_MANIFEST, false),
    (BUNDLE_HEADER_HASH_ALGORITHM, false),
    (BUNDLE_HEADER_PAYLOAD_INDEX, false),
    (PAYLOAD_ENTRY_TYPE_SLOT, false),
    (PAYLOAD_ENTRY_TYPE_EXECUTE, false),
    (PAYLOAD_ENTRY_HEADER_HASH, false),
    (PAYLOAD_ENTRY_FILE_HASH, false),
    (PAYLOAD_ENTRY_DELTA_ENCODING, false),
    (PAYLOAD_TYPE_SLOT_SLOT, false),
    (PAYLOAD_TYPE_EXECUTE_HANDLER, false),
    (BLOCK_INDEX, false),
    (BUNDLE_HEADER_IS_INCREMENTAL, false),
    (BLOCK_INDEX_CHUNKER, false),
    (BLOCK_INDEX_HASH_ALGORITHM, false),
    (BLOCK_INDEX_BLOCK_HASHES, false),
    (BLOCK_INDEX_BLOCK_SIZES, false),
    (SIGNATURES, true),
    (SIGNATURES_CMS_SIGNATURE, true),
    (PAYLOADS, false),
    (PAYLOAD, false),
    (PAYLOAD_HEADER, false),
    (PAYLOAD_DATA, false),
    (PAYLOAD_HEADER_BLOCK_ENCODING, false),
    (COMPRESSION_XZ, false),
    (BLOCK_ENCODING_HASH_ALGORITHM, false),
    (BLOCK_ENCODING_DEDUPLICATED, false),
    (BLOCK_ENCODING_CHUNKER, false),
    (BLOCK_ENCODING_COMPRESSION, false),
    (BLOCK_ENCODING_BLOCK_HASHES, false),
    (BLOCK_ENCODING_BLOCK_SIZES, false),
    (DELTA_ENCODING_FORMAT, false),
    (DELTA_ENCODING_INPUT, false),
    (DELTA_ENCODING_ORIGINAL_HASH, false),
    (DELTA_ENCODING_INPUT_HASH, false),
    (SIGNED_METADATA, false),
    (SIGNED_METADATA_HEADER_HASH, false) ]

/-- `is_know`: whether the tag is one of the defined tags. -/
def is_know (tag : Tag) : Bool :=
  definedTags.any (fun p => p.1 == tag)

/-! # Slot model -/

/-- Modelled from the spec: a `BlockDevice` handle (disk/partition layer,
outside the core sources) is constructible from a device path; we record the
path it was constructed from. -/
structure BlockDevice where
  path : String
deriving DecidableEq

/-- Modelled from the spec: whether a path names a valid block device is a
property of the running system; we abstract it as an environment predicate.
`BlockDevice::new` succeeds exactly on paths the environment accepts. -/
structure Env where
  isBlockDevice : String → Bool

/-- `BlockDevice::new(path)`: a handle when the path is a block device of the
environment, otherwise failure. -/
def Env.newBlockDevice (env : Env) (path : String) : Option BlockDevice :=
  if env.isBlockDevice path then some ⟨path⟩ else none

/-- Modelled from the spec: the detected partition table kind of the system
root, MBR or GPT. -/
inductive PartitionTableKind where
  | mbr
  | gpt
deriving DecidableEq

/-- Modelled from the spec: the root's partition table, exposing its detected
kind via `is_mbr`. -/
structure PartitionTable where
  kind : PartitionTableKind
deriving DecidableEq

/-- `table.is_mbr()`: whether the detected partition table is MBR. -/
def PartitionTable.is_mbr (t : PartitionTable) : Bool :=
  match t.kind with
  | .mbr => true
  | .gpt => false

/-- Modelled from the spec: a `SystemRoot` (disk/partition layer, outside the
core sources) exposes an optional detected partition table and
`resolve_partition(number) -> Option<BlockDevice>`, abstracted as a function
field. -/
structure SystemRoot where
  table : Option PartitionTable
  resolve_partition : Nat → Option BlockDevice

/-- Modelled from the spec: configuration of a Block slot — optional device
path, optional partition number, optional immutability flag
(`BlockSlotConfig` of the configuration crate, outside the core sources). -/
structure BlockSlotConfig where
  device : Option String
  partition : Option Nat
  immutable : Option Bool
deriving DecidableEq

/-- Modelled from the spec: configuration of a File slot — path and optional
immutability flag. -/
structure FileSlotConfig where
  path : String
  immutable : Option Bool
deriving DecidableEq

/-- Modelled from the spec: configuration of a Custom slot — handler command
line. -/
structure CustomSlotConfig where
  handler : List String
deriving DecidableEq

/-- Modelled from the spec: a typed `SlotConfig` per named slot: Block, File
or Custom. -/
inductive SlotConfig where
  | Block (c : BlockSlotConfig)
  | File (c : FileSlotConfig)
  | Custom (c : CustomSlotConfig)
deriving DecidableEq

/-- `BlockSlot`: a block slot holds the resolved device. -/
structure BlockSlot where
  device : BlockDevice
deriving DecidableEq

/-- `SlotKind`: kind of a slot — `Block(BlockSlot)`, `File { path }` or
`Custom { handler }`. -/
inductive SlotKind where
  | Block (s : BlockSlot)
  | File (path : String)
  | Custom (handler : List String)
deriving DecidableEq

/-- `Slot`: name, kind, configuration and the mutable activation flag (a
`Mutex<bool>` in the source; the mutex only provides exclusive access, so we
model the flag's value directly and mutation as functional update). -/
structure Slot where
  name : String
  kind : SlotKind
  config : SlotConfig
  active : Bool
deriving DecidableEq

/-- `Slot::new`: create a new slot; the activation flag starts out `false`. -/
def Slot.new (name : String) (kind : SlotKind) (config : SlotConfig) : Slot :=
  ⟨name, kind, config, false⟩

/-- `Slot::is_block`: whether the slot is of type `block`. -/
def Slot.is_block (s : Slot) : Bool :=
  match s.kind with
  | .Block _ => true
  | _ => false

/-- `Slot::is_immutable`: the configured immutability flag, defaulting to
`false` when absent, and always `false` for a Custom slot. -/
def Slot.is_immutable (s : Slot) : Bool :=
  match s.config with
  | .Block c => c.immutable.getD false
  | .File c => c.immutable.getD false
  | .Custom _ => false

/-- `Slot::mark_active`: set the activation flag to `true`. -/
def Slot.mark_active (s : Slot) : Slot :=
  { s with active := true }

/-- The errors raised by slot construction, one constructor per `bail!` /
error site of `slots.rs`, carrying the same context. -/
inductive SystemError where
  | slotDeviceNotBlockDevice (device : String)
  | noSystemRoot
  | partitionNotFound (partition : Nat) (slot : String)
  | invalidConfigNoDeviceAndPartition (slot : String)
  | unableToDetermineSlots
deriving DecidableEq

/-- The body of the `from_iter` loop that computes a slot's kind: a Block
slot resolves its device from the explicit device path when one is given,
otherwise from the partition number against the system root; no device and
no partition is an error. File and Custom slots carry their configuration
over directly. -/
def resolveSlotKind (env : Env) (root : Option SystemRoot) (name : String) :
    SlotConfig → Except SystemError SlotKind
  | .Block bc =>
    match bc.device with
    | some device =>
      match env.newBlockDevice device with
      | some dev => .ok (.Block ⟨dev⟩)
      | none => .error (.slotDeviceNotBlockDevice device)
    | none =>
      match bc.partition with
      | some partition =>
        match root with
        | none => .error .noSystemRoot
        | some root =>
          match root.resolve_partition partition with
          | some dev => .ok (.Block ⟨dev⟩)
          | none => .error (.partitionNotFound partition name)
      | none => .error (.invalidConfigNoDeviceAndPartition name)
  | .File fc => .ok (.File fc.path)
  | .Custom cc => .ok (.Custom cc.handler)

/-- `SystemSlots`: the slots of a system, in construction order. -/
structure SystemSlots where
  slots : List Slot
deriving DecidableEq

/-- Unique index of a slot of a system (`SlotIdx`). -/
structure SlotIdx where
  idx : Nat
deriving DecidableEq

/-- The loop of `SystemSlots::from_iter`: build one slot per entry, in order,
failing on the first entry whose kind cannot be resolved. -/
def fromIterSlots (env : Env) (root : Option SystemRoot) :
    List (String × SlotConfig) → Except SystemError (List Slot)
  | [] => .ok []
  | (name, config) :: rest =>
    match resolveSlotKind env root name config with
    | .error e => .error e
    | .ok kind =>
      match fromIterSlots env root rest with
      | .error e => .error e
      | .ok slots => .ok (Slot.new name kind config :: slots)

/-- `SystemSlots::from_iter`. -/
def SystemSlots.from_iter (env : Env) (root : Option SystemRoot)
    (entries : List (String × SlotConfig)) : Except SystemError SystemSlots :=
  (fromIterSlots env root entries).map SystemSlots.mk

/-- `default_slot_config(partition, immutable)`: a Block slot configuration
with no device path, the given partition and the given immutability flag. -/
def default_slot_config (partition : Nat) (immutable : Bool) : SlotConfig :=
  .Block ⟨none, some partition, some immutable⟩

/-- `DEFAULT_MBR_SLOTS`: default slots of an MBR-partitioned root device. -/
def DEFAULT_MBR_SLOTS : List (String × SlotConfig) :=
  [ ("boot-a", default_slot_config 2 false),
    ("boot-b", default_slot_config 3 false),
    ("system-a", default_slot_config 5 true),
    ("system-b", default_slot_config 6 true) ]

/-- `DEFAULT_GPT_SLOTS`: default slots of a GPT-partitioned root device. -/
def DEFAULT_GPT_SLOTS : List (String × SlotConfig) :=
  [ ("boot-a", default_slot_config 2 false),
    ("boot-b", default_slot_config 3 false),
    ("system-a", default_slot_config 4 true),
    ("system-b", default_slot_config 5 true) ]

/-- `SystemSlots::from_config`: explicit configuration (an insertion-ordered
map, modelled as an association list) is used when present; otherwise fall
back to the default layout for the root's detected partition table. -/
def SystemSlots.from_config (env : Env) (root : Option SystemRoot)
    (config : Option (List (String × SlotConfig))) :
    Except SystemError SystemSlots :=
  match config with
  | some config => SystemSlots.from_iter env root config
  | none =>
    match root with
    | none => .error .noSystemRoot
    | some root =>
      match root.table with
      | none => .error .unableToDetermineSlots
      | some table =>
        let default_slots :=
          if table.is_mbr then DEFAULT_MBR_SLOTS else DEFAULT_GPT_SLOTS
        SystemSlots.from_iter env (some root) default_slots

/-- `SystemSlots::iter`: the `(SlotIdx, Slot)` pairs in construction order. -/
def SystemSlots.iter (s : SystemSlots) : List (SlotIdx × Slot) :=
  s.slots.enum.map (fun p => (⟨p.1⟩, p.2))

/-- `SystemSlots::find_by_name`: linear search through `iter`. -/
def SystemSlots.find_by_name (s : SystemSlots) (name : String) :
    Option (SlotIdx × Slot) :=
  s.iter.find? (fun p => p.2.name == name)

/-- Marking the slot at index `i` active: the in-memory effect of calling
`mark_active` through the slot at that index (interior mutability in the
source, functional update here). -/
def markActiveAt : List Slot → Nat → List Slot
  | [], _ => []
  | s :: rest, 0 => s.mark_active :: rest
  | s :: rest, n + 1 => s :: markActiveAt rest n

/-- `SystemSlots` version of `markActiveAt`. -/
def SystemSlots.mark_active (s : SystemSlots) (i : SlotIdx) : SystemSlots :=
  ⟨markActiveAt s.slots i.idx⟩

/-- The public operations on a constructed `SystemSlots`: `mark_active` on a
slot, and the read-only queries (`find_by_name`, `iter`, indexing, `name`,
`kind`, `config`, `active`, `is_block`, `is_immutable`), which do not change
the state. -/
inductive SlotsOp where
  | mark_active (i : Nat)
  | query

/-- Effect of one public operation on the slot vector. -/
def applyOp (slots : List Slot) : SlotsOp → List Slot
  | .mark_active i => markActiveAt slots i
  | .query => slots

/-- Effect of a sequence of public operations. -/
def applyOps (slots : List Slot) (ops : List SlotsOp) : List Slot :=
  ops.foldl applyOp slots

end Rugix

namespace Rugix

/-! # Theorems about the tag registry -/

/-- **C2.** For every 32-bit value `t`, `is_optional` on the corresponding tag
returns `true` exactly when bit 31 of `t` — the highest bit of the first
(most significant, big-endian) byte — is set, and `is_required` is its
negation. Both functions are total Lean functions, so they never panic. -/
theorem is_optional_iff_top_bit (t : Nat) (h : t < 2 ^ 32) :
    (is_optional (Tag.fromU32 t) = true ↔ Nat.testBit t 31 = true) ∧
    is_required (Tag.fromU32 t) = !is_optional (Tag.fromU32 t) := by
  constructor
  · have hb : (Tag.fromU32 t).b0 = t / 2 ^ 24 % 256 := rfl
    have hlt : t / 2 ^ 24 % 256 < 256 := Nat.mod_lt _ (by norm_num)
    have key : ∀ b < 256, ((b &&& 128 != 0) = true ↔ b / 128 % 2 = 1) := by decide
    have htb : Nat.testBit t 31 = decide (t / 2 ^ 31 % 2 = 1) :=
      Nat.testBit_to_div_mod
    rw [is_optional, hb, IS_OPTIONAL_MASK, key _ hlt, htb]
    simp only [decide_eq_true_eq]
    omega
  · rfl

/-- Witness for C2 at the concrete optional tag value `0xa83936f1`. -/
theorem is_optional_iff_top_bit_witness :
    (0xa83936f1 : Nat) < 2 ^ 32 ∧
      (is_optional (Tag.fromU32 0xa83936f1) = true ↔
        Nat.testBit 0xa83936f1 31 = true) :=
  ⟨by norm_num, (is_optional_iff_top_bit 0xa83936f1 (by norm_num)).1⟩

/-- **C3.** Every defined tag's top bit matches its declared classification:
the two tags marked optional in the table (`SIGNATURES` and
`SIGNATURES_CMS_SIGNATURE`) satisfy `is_optional`, and every other defined
tag satisfies `is_required`. -/
theorem definedTags_requiredness_consistent :
    is_optional SIGNATURES = true ∧
    is_optional SIGNATURES_CMS_SIGNATURE = true ∧
    ∀ p ∈ definedTags,
      (p.2 = true → is_optional p.1 = true) ∧
      (p.2 = false → is_required p.1 = true) := by
  refine ⟨by decide, by decide, ?_⟩
  decide

/-- Witness for C3 at a concrete entry of the table: the required tag
`BUNDLE` and the optional tag `SIGNATURES`. -/
theorem definedTags_requiredness_consistent_witness :
    is_required BUNDLE = true ∧ is_optional SIGNATURES = true := by
  refine ⟨?_, (definedTags_requiredness_consistent).1⟩
  have h := (definedTags_requiredness_consistent).2.2 (BUNDLE, false)
    (by decide)
  exact h.2 rfl

/-- **C4.** No two distinct named tags of the registry share the same 4-byte
value: the list of defined tag values has no duplicates. -/
theorem definedTags_values_distinct :
    (definedTags.map Prod.fst).Nodup := by
  decide

/-! # Theorems about the slot model -/

/-- Helper: `markActiveAt` pointwise — the slot at the marked index gets
`mark_active` applied, every other index is untouched. -/
theorem markActiveAt_getElem? (slots : List Slot) (i j : Nat) :
    (markActiveAt slots i)[j]? =
      if j = i then (slots[j]?).map Slot.mark_active else slots[j]? := by
  induction slots generalizing i j with
  | nil => simp [markActiveAt]
  | cons s rest ih =>
    cases i with
    | zero =>
      cases j with
      | zero => simp [markActiveAt]
      | succ j => simp [markActiveAt]
    | succ i =>
      cases j with
      | zero => simp [markActiveAt]
      | succ j =>
        rcases eq_or_ne j i with h | h
        · subst h
          simp [markActiveAt, ih]
        · simp [markActiveAt, ih, h]

/-- **C7.** `mark_active` on the slot at index `i` makes that slot's `active`
flag `true` and changes nothing else: every other position of the slot
vector is untouched, and every slot (the marked one included) keeps its
`name`, `kind`, `config`, `is_block` and `is_immutable` observations. -/
theorem mark_active_frame (slots : List Slot) (i : Nat)
    (h : i < slots.length) :
    (∃ s : Slot, (markActiveAt slots i)[i]? = some s ∧ s.active = true) ∧
    (∀ j : Nat, j ≠ i → (markActiveAt slots i)[j]? = slots[j]?) ∧
    (∀ (j : Nat) (s s' : Slot), slots[j]? = some s →
      (markActiveAt slots i)[j]? = some s' →
      s'.name = s.name ∧ s'.kind = s.kind ∧ s'.config = s.config ∧
      s'.is_block = s.is_block ∧ s'.is_immutable = s.is_immutable) := by
  refine ⟨?_, ?_, ?_⟩
  · have hsome : slots[i]? = some (slots.get ⟨i, h⟩) := by
      simp [List.getElem?_eq_getElem h, List.get_eq_getElem]
    exact ⟨(slots.get ⟨i, h⟩).mark_active,
      by simp [markActiveAt_getElem?, hsome], rfl⟩
  · intro j hj
    simp [markActiveAt_getElem?, hj]
  · intro j s s' hs hs'
    rw [markActiveAt_getElem?] at hs'
    rcases eq_or_ne j i with hji | hji
    · rw [if_pos hji, hs] at hs'
      obtain rfl : s' = s.mark_active := by
        simpa using hs'.symm
      exact ⟨rfl, rfl, rfl, rfl, rfl⟩
    · rw [if_neg hji, hs] at hs'
      obtain rfl : s' = s := by simpa using hs'.symm
      exact ⟨rfl, rfl, rfl, rfl, rfl⟩

/-- Witness for C7: marking the only slot of a one-slot system active. -/
theorem mark_active_frame_witness :
    ∃ s, (markActiveAt
        [Slot.new "system-a" (.File "f") (.File ⟨"f", none⟩)] 0)[0]? =
      some s ∧ s.active = true :=
  (mark_active_frame [Slot.new "system-a" (.File "f") (.File ⟨"f", none⟩)] 0
    (by decide)).1

/-- Helper for C8: slots coming out of `fromIterSlots` are all inactive. -/
theorem fromIterSlots_active_false (env : Env) (root : Option SystemRoot)
    (entries : List (String × SlotConfig)) (l : List Slot)
    (h : fromIterSlots env root entries = .ok l) :
    ∀ slot ∈ l, slot.active = false := by
  induction entries generalizing l with
  | nil =>
    obtain rfl : l = [] := by
      simpa [fromIterSlots] using h.symm
    simp
  | cons head tail ih =>
    obtain ⟨name, config⟩ := head
    rw [fromIterSlots] at h
    cases hk : resolveSlotKind env root name config with
    | error e => rw [hk] at h; cases h
    | ok kind =>
      rw [hk] at h
      cases ht : fromIterSlots env root tail with
      | error e => rw [ht] at h; cases h
      | ok rest =>
        rw [ht] at h
        obtain rfl : l = Slot.new name kind config :: rest := by
          simpa using h.symm
        intro slot hslot
        rcases List.mem_cons.mp hslot with rfl | hslot
        · rfl
        · exact ih rest ht slot hslot

/-- **C8.** Every slot is constructed inactive (`Slot::new` sets the flag to
`false`, and every slot produced by `from_iter` is inactive), and activation
is monotone under the public operations: once a slot's `active` flag is
`true`, it stays `true` after any further sequence of operations, since
`mark_active` is the only mutating operation and it only sets the flag. -/
theorem activation_monotone :
    (∀ name kind config, (Slot.new name kind config).active = false) ∧
    (∀ (env : Env) (root : Option SystemRoot)
        (entries : List (String × SlotConfig)) (s : SystemSlots),
      SystemSlots.from_iter env root entries = .ok s →
      ∀ slot ∈ s.slots, slot.active = false) ∧
    (∀ (slots : List Slot) (ops : List SlotsOp) (i : Nat) (s : Slot),
      slots[i]? = some s → s.active = true →
      ∃ s', (applyOps slots ops)[i]? = some s' ∧ s'.active = true) := by
  refine ⟨fun _ _ _ => rfl, ?_, ?_⟩
  · intro env root entries s h
    cases hl : fromIterSlots env root entries with
    | error e =>
      rw [SystemSlots.from_iter, hl] at h
      cases h
    | ok l =>
      rw [SystemSlots.from_iter, hl] at h
      obtain rfl : s = SystemSlots.mk l := by
        simpa [Except.map] using h.symm
      exact fromIterSlots_active_false env root entries l hl
  · intro slots ops
    induction ops generalizing slots with
    | nil => exact fun i s hs ha => ⟨s, hs, ha⟩
    | cons op ops ih =>
      intro i s hs ha
      rcases op with m | _
      · rcases eq_or_ne i m with rfl | hne
        · exact ih (markActiveAt slots i) i s.mark_active
            (by simp [markActiveAt_getElem?, hs]) rfl
        · exact ih (markActiveAt slots m) i s
            (by simp [markActiveAt_getElem?, hne, hs]) ha
      · exact ih slots i s hs ha

/-- Witness for C8: a slot already active stays active after one further
`mark_active` on another index and a query. -/
theorem activation_monotone_witness :
    ∃ s', (applyOps
        [Slot.mark_active (Slot.new "a" (.File "f") (.File ⟨"f", none⟩))]
        [SlotsOp.query, SlotsOp.mark_active 5])[0]? = some s' ∧
      s'.active = true :=
  activation_monotone.2.2
    [Slot.mark_active (Slot.new "a" (.File "f") (.File ⟨"f", none⟩))]
    [SlotsOp.query, SlotsOp.mark_active 5] 0
    (Slot.mark_active (Slot.new "a" (.File "f") (.File ⟨"f", none⟩)))
    rfl rfl

/-- **C9.** A Block slot whose configuration has both a device path and a
partition number is resolved from the device path alone: construction of a
system with such a slot succeeds with `root = none` as soon as the path is a
valid block device, and the slot's resolution is independent of the root. -/
theorem block_device_takes_precedence :
    (∀ (env : Env) (name dev : String) (p : Nat) (imm : Option Bool),
      env.isBlockDevice dev = true →
      SystemSlots.from_iter env none
          [(name, .Block ⟨some dev, some p, imm⟩)] =
        .ok ⟨[Slot.new name (.Block ⟨⟨dev⟩⟩)
          (.Block ⟨some dev, some p, imm⟩)]⟩) ∧
    (∀ (env : Env) (root₁ root₂ : Option SystemRoot) (name dev : String)
        (p : Option Nat) (imm : Option Bool),
      resolveSlotKind env root₁ name (.Block ⟨some dev, p, imm⟩) =
        resolveSlotKind env root₂ name (.Block ⟨some dev, p, imm⟩)) := by
  constructor
  · intro env name dev p imm h
    simp [SystemSlots.from_iter, fromIterSlots, resolveSlotKind,
      Env.newBlockDevice, h, Except.map]
  · intro env root₁ root₂ name dev p imm
    rfl

/-- Witness for C9: a device-and-partition slot constructed without a root. -/
theorem block_device_takes_precedence_witness :
    SystemSlots.from_iter ⟨fun _ => true⟩ none
        [("data", .Block ⟨some "/dev/sda7", some 7, none⟩)] =
      .ok ⟨[Slot.new "data" (.Block ⟨⟨"/dev/sda7"⟩⟩)
        (.Block ⟨some "/dev/sda7", some 7, none⟩)]⟩ :=
  block_device_takes_precedence.1 ⟨fun _ => true⟩ "data" "/dev/sda7" 7 none
    rfl

/-- **C10.** In the default MBR and GPT layouts the `system-a`/`system-b`
slots carry `immutable = true` and the `boot-a`/`boot-b` slots
`immutable = false`; an absent `immutable` flag means `is_immutable` is
`false`, and a Custom slot's `is_immutable` is always `false`. -/
theorem default_layout_immutability :
    (∀ kind : SlotKind,
      DEFAULT_MBR_SLOTS.map
          (fun p => (p.1, (Slot.new p.1 kind p.2).is_immutable)) =
        [("boot-a", false), ("boot-b", false),
         ("system-a", true), ("system-b", true)] ∧
      DEFAULT_GPT_SLOTS.map
          (fun p => (p.1, (Slot.new p.1 kind p.2).is_immutable)) =
        [("boot-a", false), ("boot-b", false),
         ("system-a", true), ("system-b", true)]) ∧
    (∀ (name : String) (kind : SlotKind) (bc : BlockSlotConfig),
      bc.immutable = none →
      (Slot.new name kind (.Block bc)).is_immutable = false) ∧
    (∀ (name : String) (kind : SlotKind) (fc : FileSlotConfig),
      fc.immutable = none →
      (Slot.new name kind (.File fc)).is_immutable = false) ∧
    (∀ (name : String) (kind : SlotKind) (cc : CustomSlotConfig),
      (Slot.new name kind (.Custom cc)).is_immutable = false) := by
  refine ⟨fun kind => ⟨rfl, rfl⟩, ?_, ?_, fun _ _ _ => rfl⟩
  · intro name kind bc h
    simp [Slot.new, Slot.is_immutable, h]
  · intro name kind fc h
    simp [Slot.new, Slot.is_immutable, h]

/-- Witness for C10: a Block slot with no `immutable` flag is mutable. -/
theorem default_layout_immutability_witness :
    (Slot.new "data" (.File "f") (.Block ⟨none, some 7, none⟩)).is_immutable =
      false :=
  default_layout_immutability.2.1 "data" (.File "f") ⟨none, some 7, none⟩ rfl

/-- **C1.** `from_config` with no explicit slot configuration: no root is an
error; a root with no partition table fails with the "unable to determine
slots" error; a root with an MBR table yields exactly the four slots
`boot-a`, `boot-b`, `system-a`, `system-b` on partitions 2, 3, 5, 6
respectively, in that construction order (with a GPT table: partitions
2, 3, 4, 5), provided the root resolves those partitions. -/
theorem from_config_default_layouts :
    (∀ env : Env,
      SystemSlots.from_config env none none = .error .noSystemRoot) ∧
    (∀ (env : Env) (root : SystemRoot), root.table = none →
      SystemSlots.from_config env (some root) none =
        .error .unableToDetermineSlots) ∧
    (∀ (env : Env) (root : SystemRoot) (t : PartitionTable)
        (d2 d3 d5 d6 : BlockDevice),
      root.table = some t → t.is_mbr = true →
      root.resolve_partition 2 = some d2 →
      root.resolve_partition 3 = some d3 →
      root.resolve_partition 5 = some d5 →
      root.resolve_partition 6 = some d6 →
      SystemSlots.from_config env (some root) none =
        .ok ⟨[Slot.new "boot-a" (.Block ⟨d2⟩) (default_slot_config 2 false),
              Slot.new "boot-b" (.Block ⟨d3⟩) (default_slot_config 3 false),
              Slot.new "system-a" (.Block ⟨d5⟩) (default_slot_config 5 true),
              Slot.new "system-b" (.Block ⟨d6⟩)
                (default_slot_config 6 true)]⟩) ∧
    (∀ (env : Env) (root : SystemRoot) (t : PartitionTable)
        (d2 d3 d4 d5 : BlockDevice),
      root.table = some t → t.is_mbr = false →
      root.resolve_partition 2 = some d2 →
      root.resolve_partition 3 = some d3 →
      root.resolve_partition 4 = some d4 →
      root.resolve_partition 5 = some d5 →
      SystemSlots.from_config env (some root) none =
        .ok ⟨[Slot.new "boot-a" (.Block ⟨d2⟩) (default_slot_config 2 false),
              Slot.new "boot-b" (.Block ⟨d3⟩) (default_slot_config 3 false),
              Slot.new "system-a" (.Block ⟨d4⟩) (default_slot_config 4 true),
              Slot.new "system-b" (.Block ⟨d5⟩)
                (default_slot_config 5 true)]⟩) := by
  refine ⟨fun env => rfl, ?_, ?_, ?_⟩
  · intro env root ht
    simp [SystemSlots.from_config, ht]
  · intro env root t d2 d3 d5 d6 ht hmbr h2 h3 h5 h6
    simp [SystemSlots.from_config, ht, hmbr, SystemSlots.from_iter,
      fromIterSlots, DEFAULT_MBR_SLOTS, default_slot_config,
      resolveSlotKind, h2, h3, h5, h6, Except.map]
  · intro env root t d2 d3 d4 d5 ht hmbr h2 h3 h4 h5
    simp [SystemSlots.from_config, ht, hmbr, SystemSlots.from_iter,
      fromIterSlots, DEFAULT_GPT_SLOTS, default_slot_config,
      resolveSlotKind, h2, h3, h4, h5, Except.map]

/-- Witness for C1: the default MBR layout on a concrete root that resolves
every partition to the same device. -/
theorem from_config_default_layouts_witness :
    SystemSlots.from_config ⟨fun _ => false⟩
        (some ⟨some ⟨.mbr⟩, fun _ => some ⟨"p"⟩⟩) none =
      .ok ⟨[Slot.new "boot-a" (.Block ⟨⟨"p"⟩⟩) (default_slot_config 2 false),
            Slot.new "boot-b" (.Block ⟨⟨"p"⟩⟩) (default_slot_config 3 false),
            Slot.new "system-a" (.Block ⟨⟨"p"⟩⟩) (default_slot_config 5 true),
            Slot.new "system-b" (.Block ⟨⟨"p"⟩⟩)
              (default_slot_config 6 true)]⟩ :=
  from_config_default_layouts.2.2.1 ⟨fun _ => false⟩
    ⟨some ⟨.mbr⟩, fun _ => some ⟨"p"⟩⟩ ⟨.mbr⟩ ⟨"p"⟩ ⟨"p"⟩ ⟨"p"⟩ ⟨"p"⟩
    rfl rfl rfl rfl rfl rfl

/-- Helper for C5: if any entry of the configuration fails to resolve, the
whole `fromIterSlots` loop fails. -/
theorem fromIterSlots_error_of_mem (env : Env) (root : Option SystemRoot)
    (entries : List (String × SlotConfig)) (name : String) (cfg : SlotConfig)
    (hmem : (name, cfg) ∈ entries)
    (herr : ∃ e, resolveSlotKind env root name cfg = .error e) :
    ∃ e, fromIterSlots env root entries = .error e := by
  induction entries with
  | nil => cases hmem
  | cons head tail ih =>
    obtain ⟨n, c⟩ := head
    rcases List.mem_cons.mp hmem with heq | hmem'
    · obtain ⟨e, he⟩ := herr
      injection heq with h1 h2
      subst h1
      subst h2
      exact ⟨e, by rw [fromIterSlots, he]⟩
    · obtain ⟨e, he⟩ := ih hmem'
      cases hk : resolveSlotKind env root n c with
      | error e0 => exact ⟨e0, by rw [fromIterSlots, hk]⟩
      | ok kind => exact ⟨e, by rw [fromIterSlots, hk, he]⟩

/-- **C5.** Construction from an explicit configuration fails (yielding no
`SystemSlots` value) whenever some Block entry has both device and partition
unset, or has a partition number but the root is absent, or a partition
number the root cannot resolve: any single slot's resolution failure fails
the whole construction. -/
theorem from_iter_explicit_errors (env : Env) (root : Option SystemRoot)
    (entries : List (String × SlotConfig)) (name : String)
    (bc : BlockSlotConfig) (hmem : (name, SlotConfig.Block bc) ∈ entries)
    (hdev : bc.device = none)
    (hfail : bc.partition = none ∨
      (root = none ∧ ∃ p, bc.partition = some p) ∨
      (∃ r p, root = some r ∧ bc.partition = some p ∧
        r.resolve_partition p = none)) :
    ∃ e, SystemSlots.from_iter env root entries = .error e := by
  have herr : ∃ e, resolveSlotKind env root name (.Block bc) = .error e := by
    rcases hfail with hp | ⟨hr, p, hp⟩ | ⟨r, p, hr, hp, hres⟩
    · exact ⟨.invalidConfigNoDeviceAndPartition name,
        by simp [resolveSlotKind, hdev, hp]⟩
    · exact ⟨.noSystemRoot, by simp [resolveSlotKind, hdev, hp, hr]⟩
    · exact ⟨.partitionNotFound p name,
        by simp [resolveSlotKind, hdev, hp, hr, hres]⟩
  obtain ⟨e, he⟩ :=
    fromIterSlots_error_of_mem env root entries name _ hmem herr
  exact ⟨e, by rw [SystemSlots.from_iter, he]; rfl⟩

/-- Witness for C5: a Block slot with neither device nor partition fails. -/
theorem from_iter_explicit_errors_witness :
    ∃ e, SystemSlots.from_iter ⟨fun _ => true⟩ none
        [("slot-x", .Block ⟨none, none, none⟩)] = .error e :=
  from_iter_explicit_errors ⟨fun _ => true⟩ none
    [("slot-x", .Block ⟨none, none, none⟩)] "slot-x" ⟨none, none, none⟩
    (List.mem_singleton.mpr rfl) rfl (Or.inl rfl)

/-- Helper for C6: characterization of `find?` over the enumerated slot
vector, generalized over the enumeration offset. -/
theorem find_enumFrom_spec (name : String) (l : List Slot) :
    ∀ k : Nat,
    (((l.enumFrom k).map
          (fun p => (SlotIdx.mk p.1, p.2))).find?
        (fun p => p.2.name == name) = none ↔
      ∀ slot ∈ l, slot.name ≠ name) ∧
    (∀ (i : Nat) (slot : Slot),
      ((l.enumFrom k).map
          (fun p => (SlotIdx.mk p.1, p.2))).find?
        (fun p => p.2.name == name) = some (⟨i⟩, slot) →
      k ≤ i ∧ l[i - k]? = some slot ∧ slot.name = name ∧
      ∀ j : Nat, j < i - k → ∀ sj : Slot, l[j]? = some sj →
        sj.name ≠ name) := by
  induction l with
  | nil =>
    intro k
    constructor
    · simp [List.enumFrom]
    · intro i slot h
      simp [List.enumFrom] at h
  | cons s rest ih =>
    intro k
    by_cases hname : s.name = name
    · constructor
      · constructor
        · intro h
          simp [List.enumFrom, List.find?_cons, hname] at h
        · intro h
          exact absurd hname (h s (List.mem_cons_self s rest))
      · intro i slot h
        rw [show (s :: rest).enumFrom k = (k, s) :: rest.enumFrom (k + 1)
            from rfl] at h
        simp only [List.map_cons, List.find?_cons, hname,
          beq_self_eq_true] at h
        obtain ⟨rfl, rfl⟩ : k = i ∧ s = slot := by
          have h' := h
          injection h' with h1
          injection h1 with ha hb
          exact ⟨congrArg SlotIdx.idx ha, hb⟩
        refine ⟨Nat.le_refl k, by simp, hname, ?_⟩
        intro j hj
        omega
    · have hbeq : (s.name == name) = false := by
        simp [hname]
      constructor
      · constructor
        · intro h
          intro slot hslot
          rcases List.mem_cons.mp hslot with rfl | hslot'
          · exact hname
          · refine ((ih (k + 1)).1.mp ?_) slot hslot'
            rw [show (s :: rest).enumFrom k = (k, s) :: rest.enumFrom (k + 1)
                from rfl] at h
            simpa [List.find?_cons, hbeq] using h
        · intro h
          rw [show (s :: rest).enumFrom k = (k, s) :: rest.enumFrom (k + 1)
              from rfl]
          simp only [List.map_cons, List.find?_cons, hbeq]
          exact (ih (k + 1)).1.mpr fun slot hslot =>
            h slot (List.mem_cons_of_mem s hslot)
      · intro i slot h
        rw [show (s :: rest).enumFrom k = (k, s) :: rest.enumFrom (k + 1)
            from rfl] at h
        simp only [List.map_cons, List.find?_cons, hbeq] at h
        obtain ⟨hk, hget, hn, hfirst⟩ := (ih (k + 1)).2 i slot h
        have hki : k ≤ i := Nat.le_of_succ_le hk
        have harith : i - k = (i - (k + 1)) + 1 := by omega
        refine ⟨hki, ?_, hn, ?_⟩
        · rw [harith]
          simpa using hget
        · intro j hj sj hsj
          cases j with
          | zero =>
            obtain rfl : sj = s := by simpa using hsj.symm
            exact hname
          | succ m =>
            refine hfirst m (by omega) sj ?_
            simpa using hsj

/-- **C6.** `find_by_name` returns `none` exactly when no slot has the name;
when it returns a pair `(idx, slot)`, the index equals the slot's position
in construction order, that position holds the returned slot, the slot
bears the name, and no earlier slot does (first match); `iter` yields all
`(index, slot)` pairs in construction order with indices `0, 1, 2, …`. -/
theorem find_by_name_spec (s : SystemSlots) (name : String) :
    (s.find_by_name name = none ↔ ∀ slot ∈ s.slots, slot.name ≠ name) ∧
    (∀ (i : Nat) (slot : Slot), s.find_by_name name = some (⟨i⟩, slot) →
      s.slots[i]? = some slot ∧ slot.name = name ∧
      ∀ j : Nat, j < i → ∀ sj : Slot, s.slots[j]? = some sj →
        sj.name ≠ name) ∧
    s.iter.map Prod.snd = s.slots ∧
    s.iter.map (fun p => p.1.idx) = List.range s.slots.length := by
  have h := find_enumFrom_spec name s.slots 0
  refine ⟨?_, ?_, ?_, ?_⟩
  · exact h.1
  · intro i slot hfind
    obtain ⟨-, hget, hn, hfirst⟩ := h.2 i slot hfind
    exact ⟨by simpa using hget, hn,
      fun j hj sj hsj => hfirst j (by omega) sj hsj⟩
  · have hcomp :
        (Prod.snd ∘ fun p : Nat × Slot => ((⟨p.1⟩ : SlotIdx), p.2)) =
          Prod.snd := funext fun p => rfl
    simp only [SystemSlots.iter, List.map_map, hcomp]
    exact List.enum_map_snd s.slots
  · have hcomp :
        ((fun p : SlotIdx × Slot => p.1.idx) ∘
            fun p : Nat × Slot => ((⟨p.1⟩ : SlotIdx), p.2)) =
          Prod.fst := funext fun p => rfl
    simp only [SystemSlots.iter, List.map_map, hcomp]
    exact List.enum_map_fst s.slots

/-- Witness for C6: looking up the second slot of a two-slot system. -/
theorem find_by_name_spec_witness :
    (SystemSlots.mk [Slot.new "a" (.File "f") (.File ⟨"f", none⟩),
        Slot.new "b" (.File "g") (.File ⟨"g", none⟩)]).slots[1]? =
      some (Slot.new "b" (.File "g") (.File ⟨"g", none⟩)) ∧
    (Slot.new "b" (.File "g") (.File ⟨"g", none⟩)).name = "b" ∧
    ∀ j : Nat, j < 1 → ∀ sj : Slot,
      (SystemSlots.mk [Slot.new "a" (.File "f") (.File ⟨"f", none⟩),
          Slot.new "b" (.File "g") (.File ⟨"g", none⟩)]).slots[j]? =
        some sj → sj.name ≠ "b" :=
  (find_by_name_spec
      (SystemSlots.mk [Slot.new "a" (.File "f") (.File ⟨"f", none⟩),
        Slot.new "b" (.File "g") (.File ⟨"g", none⟩)]) "b").2.1 1
    (Slot.new "b" (.File "g") (.File ⟨"g", none⟩)) (by decide)

end Rugix
